import Mathlib

/-!
Shallow embedding of the ServoCIE driver (ciedriver.py, revision under src/source/)
and theorems checking the natural-language specification against it.

Bytes are modelled as natural numbers below 256, byte strings as List Nat.
Python exceptions (IndexError, KeyError, ZeroDivisionError, TypeError, ValueError)
are modelled by Option: a method that raises returns none.
-/

namespace ServoCIE

/-- The six data categories of the CIE protocol, the tuple
dataCategories = (C, B, T, S, A, E) in ciedriver.py. -/
inductive Cat
  | C
  | B
  | T
  | S
  | A
  | E
deriving DecidableEq

/-- A total map keyed by the six categories, modelling the Python dicts
openChannels and channelData (both keyed by the dataCategories tuple). -/
structure CatMap (α : Type) where
  c : α
  b : α
  t : α
  s : α
  a : α
  e : α
deriving DecidableEq

def CatMap.get {α : Type} (m : CatMap α) : Cat → α
  | .C => m.c
  | .B => m.b
  | .T => m.t
  | .S => m.s
  | .A => m.a
  | .E => m.e

def CatMap.set {α : Type} (m : CatMap α) : Cat → α → CatMap α
  | .C, v => { m with c := v }
  | .B, v => { m with b := v }
  | .T, v => { m with t := v }
  | .S, v => { m with s := v }
  | .A, v => { m with a := v }
  | .E, v => { m with e := v }

/-- Gain or offset field of a channel configuration: either the string None
stored by readChannelConfig for a placeholder field, or the decoded
mantissa and exponent (the Python value is mantissa * 10 ^ exponent). -/
inductive FieldVal
  | unset
  | num (mantissa : Int) (exponent : Int)
deriving DecidableEq

/-- The configuration list built by readChannelConfig:
[ch_num, gain, offset, unit, type and name fields kept verbatim]. -/
structure ChannelConfig where
  chNum : Int
  gain : FieldVal
  offset : FieldVal
  unit : Option String
  rest : List (List Nat)
deriving DecidableEq

/-- An entry of an openChannels list. defineAcquiredData stores plain integer
channel ids; readChannelConfig replaces an entry by the configuration list. -/
inductive ChanEntry
  | plain (id : Int)
  | configured (cfg : ChannelConfig)
deriving DecidableEq

/-- Subscripting an openChannels entry with [0], as the stream decoder does.
In Python, subscripting a plain int raises TypeError (modelled none);
subscripting a configuration list yields ch_num. -/
def ChanEntry.sub0 : ChanEntry → Option Int
  | .plain _ => none
  | .configured cfg => some cfg.chNum

/-- The class StreamStates enum of ciedriver.py. -/
inductive StreamState
  | END_FLAG
  | CHECK_SUM
  | ERROR
  | PHASE_FLAG
  | PHASE_DATA
  | CURVE_VAL_FLAG
  | CURVE_FIRST_BYTE
  | CURVE_SECND_BYTE
  | DIFF_VAL_BYTE
  | BREATH_FLAG
  | BREATH_FIRST_BYTE
  | BREATH_SECND_BYTE
  | SETTING_FIRST_BYTE
  | SETTING_SECND_BYTE
deriving DecidableEq

/-- The self.phase string: empty, Inspiration, Pause or Expiration. -/
inductive Phase
  | blank
  | Inspiration
  | Pause
  | Expiration
deriving DecidableEq

/-- The mutable state of a ServoCIE object (the fields set in init
that the modelled methods read or write). self.category is a string that is
either empty (none) or one of the category tags. self.message accumulates,
per received byte, the two hex characters of that byte; we record the bytes
themselves, which carry the same information. -/
structure CIE where
  extendedModeActive : Bool
  activeProtocolVersion : Nat
  openChannels : CatMap (List ChanEntry)
  channelData : CatMap (List (Int × List Int))
  category : Option Cat
  phase : Phase
  channelIndex : Nat
  value : Nat
  state : StreamState
  message : List Nat
deriving DecidableEq

/-- The state built by ServoCIE.init: empty tables, empty category,
channelIndex 0, state PHASE_FLAG, empty raw-message accumulator. -/
def initCIE : CIE :=
  { extendedModeActive := false
    activeProtocolVersion := 0
    openChannels := ⟨[], [], [], [], [], []⟩
    channelData := ⟨[], [], [], [], [], []⟩
    category := none
    phase := .blank
    channelIndex := 0
    value := 0
    state := .PHASE_FLAG
    message := [] }

/-- Python slice message[-n:]. -/
def takeLast {α : Type} (n : Nat) (l : List α) : List α := l.drop (l.length - n)

/-- Python slice message[:-n]. -/
def dropLastN {α : Type} (n : Nat) (l : List α) : List α := l.take (l.length - n)

/-- Dict read channelData[cat][ch]: none models a KeyError (also an IndexError
when channelData[cat] is still the initial empty list). -/
def dataLookup (d : List (Int × List Int)) (ch : Int) : Option (List Int) :=
  (d.find? (fun p => p.1 == ch)).map Prod.snd

/-- channelData[cat][ch].append(v): the sample list of channel ch grows by v. -/
def dataAppend (d : List (Int × List Int)) (ch : Int) (v : Int) : List (Int × List Int) :=
  d.map (fun p => if p.1 == ch then (p.1, p.2 ++ [v]) else p)

/-- The reset block at the end of readDataStream, executed in the same loop
iteration whenever the state was set to ERROR (lines 519 to 524). -/
def errorReset (c : CIE) : CIE :=
  { c with category := none, channelIndex := 0, state := .PHASE_FLAG, message := [] }

/-- One iteration of the while loop of ServoCIE.readDataStream (src/source/,
lines 393 to 524): consume one byte b, append it to the raw-message
accumulator, dispatch on the current state, then perform the error reset if
the resulting state is ERROR. none models a Python exception. -/
def step (c0 : CIE) (b : Nat) : Option CIE := do
  let c := { c0 with message := c0.message ++ [b] }
  let c1 ←
    match c.state with
    | .PHASE_FLAG =>
        if b = 0x81 then some { c with category := some .C, state := .PHASE_DATA }
        else if b = 0x80 then some { c with category := some .C, state := .CURVE_FIRST_BYTE }
        else if b = 0x42 then some { c with category := some .B, state := .BREATH_FIRST_BYTE }
        else if b = 0x53 then some { c with category := some .S, state := .SETTING_FIRST_BYTE }
        else some { c with state := .ERROR }
    | .PHASE_DATA =>
        -- Lines 416 to 426: an unrecognized byte sets state to ERROR, but the
        -- unconditional assignment on line 425 overwrites it with
        -- DIFF_VAL_BYTE before the byte is finished, so the ERROR branch of
        -- this state is dead.
        let c2 :=
          if b = 0x10 then { c with phase := .Inspiration }
          else if b = 0x20 then { c with phase := .Pause }
          else if b = 0x30 then { c with phase := .Expiration }
          else { c with state := .ERROR }
        some { c2 with state := .DIFF_VAL_BYTE }
    | .CURVE_VAL_FLAG =>
        if b = 0x80 then some { c with state := .CURVE_FIRST_BYTE }
        else some { c with state := .ERROR }
    | .CURVE_FIRST_BYTE =>
        -- self.value holds the first byte of a two-byte value (Python keeps
        -- its two hex characters; the completed value concatenates them).
        some { c with value := b, state := .CURVE_SECND_BYTE }
    | .CURVE_SECND_BYTE => do
        let v : Int := Int.ofNat (c.value * 256 + b)
        let cat ← c.category
        let entry ← (c.openChannels.get cat).get? c.channelIndex
        let ch ← entry.sub0
        let _ ← dataLookup (c.channelData.get cat) ch
        let n := (c.openChannels.get .C).length
        if n = 0 then none
        else
          some { c with
            channelData := c.channelData.set cat (dataAppend (c.channelData.get cat) ch v)
            channelIndex := (c.channelIndex + 1) % n
            value := 0
            state := .DIFF_VAL_BYTE }
    | .DIFF_VAL_BYTE =>
        if b = 0x80 then some { c with state := .CURVE_FIRST_BYTE }
        else if b = 0x7F then some { c with state := .CHECK_SUM }
        else if b = 0x81 then some { c with state := .PHASE_DATA }
        else do
          let cat ← c.category
          let entry ← (c.openChannels.get cat).get? c.channelIndex
          let ch ← entry.sub0
          let samples ← dataLookup (c.channelData.get cat) ch
          let lastValue ← samples.getLast?
          let dv : Int := if 0x82 ≤ b then (b : Int) - 256 else (b : Int)
          let n := (c.openChannels.get .C).length
          if n = 0 then none
          else
            some { c with
              channelData :=
                c.channelData.set cat (dataAppend (c.channelData.get cat) ch (lastValue + dv))
              channelIndex := (c.channelIndex + 1) % n
              value := 0 }
    | .BREATH_FIRST_BYTE =>
        if b = 0x7F then some { c with state := .CHECK_SUM }
        else some { c with value := b, state := .BREATH_SECND_BYTE }
    | .BREATH_SECND_BYTE => do
        let v : Int := Int.ofNat (c.value * 256 + b)
        let cat ← c.category
        let entry ← (c.openChannels.get cat).get? c.channelIndex
        let ch ← entry.sub0
        let _ ← dataLookup (c.channelData.get cat) ch
        let n := (c.openChannels.get .B).length
        if n = 0 then none
        else
          some { c with
            channelData := c.channelData.set cat (dataAppend (c.channelData.get cat) ch v)
            channelIndex := (c.channelIndex + 1) % n
            value := 0
            state := .BREATH_FIRST_BYTE }
    | .SETTING_FIRST_BYTE =>
        if b = 0x7F then some { c with state := .CHECK_SUM }
        else some { c with value := b, state := .SETTING_SECND_BYTE }
    | .SETTING_SECND_BYTE => do
        let v : Int := Int.ofNat (c.value * 256 + b)
        let cat ← c.category
        let entry ← (c.openChannels.get cat).get? c.channelIndex
        let ch ← entry.sub0
        let _ ← dataLookup (c.channelData.get cat) ch
        let n := (c.openChannels.get .S).length
        if n = 0 then none
        else
          -- Line 505 sends the decoder to BREATH_FIRST_BYTE, not back to
          -- SETTING_FIRST_BYTE.
          some { c with
            channelData := c.channelData.set cat (dataAppend (c.channelData.get cat) ch v)
            channelIndex := (c.channelIndex + 1) % n
            value := 0
            state := .BREATH_FIRST_BYTE }
    | .CHECK_SUM =>
        -- Checksum validation on line 510 is commented out in the source;
        -- the byte is consumed and the per-message state is cleared.
        some { c with category := none, channelIndex := 0, message := [], state := .PHASE_FLAG }
    | _ =>
        -- Default case (states END_FLAG, ERROR, BREATH_FLAG).
        some { c with state := .ERROR }
  if c1.state = .ERROR then some (errorReset c1) else some c1

/-- Feeding a byte sequence to the decoder: readDataStream consumes every
waiting byte in order, one step per byte. -/
def feed (c : CIE) (bytes : List Nat) : Option CIE :=
  bytes.foldlM step c

/-- The class Error enum of ciedriver.py. The constructor written SYNTAX in
the source is rendered SYNTAX_ERROR here; BUFFER_FUll keeps the source
spelling. -/
inductive Error
  | NO_ERROR
  | CIE_ERROR
  | INVALID
  | SYNTAX_ERROR
  | OUT_OF_RANGE
  | NO_DATA
  | TREND_BUF_OVF
  | CH_UNDEFINED
  | CIE_NOTCONF
  | STANDBY
  | TX_CHKSUM
  | BUFFER_FUll
  | RX_CHKSUM
deriving DecidableEq

/-- XOR fold of a byte string, the loop of ServoCIE.calculateChecksum. -/
def calculateChecksum (message : List Nat) : Nat :=
  message.foldl Nat.xor 0

/-- The str.upper of one character code. -/
def upperByte (n : Nat) : Nat :=
  if 97 ≤ n ∧ n ≤ 122 then n - 32 else n

/-- The str.zfill(2) of a character list: pad on the left with the zero
character up to length 2. -/
def zfill2 (l : List Nat) : List Nat :=
  if l.length < 2 then List.replicate (2 - l.length) 48 ++ l else l

/-- The textual checksum of calculateChecksum: the hex rendering of the XOR
fold (as hex(c) without the 0x prefix), uppercased and zero padded to two
characters. Nat.toDigits 16 yields the minimal lowercase hex digits, exactly
as the Python hex builtin. -/
def checksumText (message : List Nat) : List Nat :=
  zfill2 ((Nat.toDigits 16 (calculateChecksum message)).map (fun ch => upperByte ch.toNat))

/-- Value of one hex character, as bytes.fromhex accepts it. -/
def hexVal (c : Nat) : Option Nat :=
  if 48 ≤ c ∧ c ≤ 57 then some (c - 48)
  else if 65 ≤ c ∧ c ≤ 70 then some (c - 55)
  else if 97 ≤ c ∧ c ≤ 102 then some (c - 87)
  else none

/-- bytes.fromhex: pairs of hex characters become bytes; an odd length or a
non-hex character raises ValueError (none). -/
def fromHex : List Nat → Option (List Nat)
  | [] => some []
  | [_] => none
  | h :: l :: rest => do
    let hv ← hexVal h
    let lv ← hexVal l
    let tail ← fromHex rest
    some ((hv * 16 + lv) :: tail)

/-- ServoCIE.calculateChecksum (src/source/, lines 94 to 109): the textual
form is the two-character rendering, the binary form decodes it back through
bytes.fromhex. The same function serves both frame generation and frame
validation. -/
def calculateChecksumPy (message : List Nat) (binary : Bool) : Option (List Nat) :=
  if binary then fromHex (checksumText message)
  else some (checksumText message)

/-- ServoCIE.checkErrors (src/source/, lines 111 to 137). In both error-frame
branches the logging call concatenates a str with an Error member and raises
TypeError before the status can be returned (lines 118 and 129), and for a
one-byte binary error frame ord of the empty slice raises first, so a frame
that starts with the error marker makes the method raise: none. Otherwise the
received checksum slice is compared with the checksum computed over the body
slice: binary frames compare message[-1:] against the binary checksum of
message[:-2], ASCII frames compare message[-3:-1] against the textual
checksum of message[:-3]. No minimum length is checked anywhere; Python
slicing of a short frame silently yields empty or partial slices. -/
def checkErrors (message : List Nat) (binary : Bool) : Option Error :=
  if binary then
    if message.take 1 = [0xE0] then none
    else do
      let chk ← fromHex (checksumText (dropLastN 2 message))
      if takeLast 1 message ≠ chk then some .RX_CHKSUM else some .NO_ERROR
  else
    if message.take 2 = [0x45, 0x52] then none
    else
      let chk := checksumText (dropLastN 3 message)
      if takeLast 2 (dropLastN 1 message) ≠ chk then some .RX_CHKSUM else some .NO_ERROR

/-- The category strings accepted by the membership test
category in dataCategories (case sensitive). -/
def strToCat : String → Option Cat
  | "C" => some .C
  | "B" => some .B
  | "T" => some .T
  | "S" => some .S
  | "A" => some .A
  | "E" => some .E
  | _ => none

/-- The ASCII byte of a category tag. -/
def catByte : Cat → Nat
  | .C => 0x43
  | .B => 0x42
  | .T => 0x54
  | .S => 0x53
  | .A => 0x41
  | .E => 0x45

/-- Decimal ASCII rendering of an int, as the Python format b'%i'. -/
def decimalBytes (i : Int) : List Nat :=
  (toString i).data.map Char.toNat

/-- The SDAD request frame built by defineAcquiredData: mnemonic, category
tag, the decimal channel ids, the textual checksum and the terminator. -/
def sdadMessage (cat : Cat) (channels : List Int) : List Nat :=
  let body := [0x53, 0x44, 0x41, 0x44, catByte cat] ++ (channels.map decimalBytes).flatten
  body ++ checksumText body ++ [0x04]

/-- Outcome of a command: the returned status, the bytes written to the port
(none when nothing was transmitted), and the final object state. -/
structure CmdResult where
  status : Error
  written : Option (List Nat)
  final : CIE
deriving DecidableEq

/-- ServoCIE.defineAcquiredData (src/source/, lines 243 to 305), with the
response of the device passed explicitly. An unknown category returns INVALID
before anything is transmitted. Otherwise the request is built and written
unconditionally; on an error-free response a non-empty channel list replaces
the openChannels entry and installs fresh empty sample lists, and an empty
channel list clears the openChannels entry only: channelData is left as it
was. -/
def defineAcquiredData (cie : CIE) (category : String) (channels : List Int)
    (response : List Nat) : Option CmdResult :=
  match strToCat category with
  | none => some ⟨.INVALID, none, cie⟩
  | some cat => do
    let msg := sdadMessage cat channels
    let status ← checkErrors response false
    if status = .NO_ERROR then
      if 0 < channels.length then
        some ⟨status, some msg,
          { cie with
            openChannels := cie.openChannels.set cat (channels.map .plain)
            channelData := cie.channelData.set cat (channels.map (fun ch => (ch, []))) }⟩
      else
        some ⟨status, some msg, { cie with openChannels := cie.openChannels.set cat [] }⟩
    else
      some ⟨status, some msg, cie⟩

/-- str.split on the comma character: the list of fields, at least one. -/
def splitOnComma : List Nat → List (List Nat)
  | [] => [[]]
  | x :: xs =>
    match splitOnComma xs with
    | [] => [[]]
    | f :: rest => if x = 44 then [] :: f :: rest else (x :: f) :: rest

/-- Decimal value of a non-empty all-digit character list; none models the
ValueError of the int builtin. -/
def digitsVal : List Nat → Option Nat
  | [] => none
  | l => l.foldlM (fun acc d => if 48 ≤ d ∧ d ≤ 57 then some (acc * 10 + (d - 48)) else none) 0

/-- The int builtin on a character list: an optional sign then digits. -/
def parseInt : List Nat → Option Int
  | 43 :: rest => (digitsVal rest).map (fun n => (n : Int))
  | 45 :: rest => (digitsVal rest).map (fun n => -(n : Int))
  | l => (digitsVal l).map (fun n => (n : Int))

/-- The Python substring test for two adjacent dash characters. -/
def containsDashDash : List Nat → Bool
  | 45 :: 45 :: _ => true
  | _ :: xs => containsDashDash xs
  | [] => false

/-- str.lstrip with the zero character. -/
def lstripZeros : List Nat → List Nat
  | 48 :: xs => lstripZeros xs
  | l => l

/-- The 23-entry units dict of ciedriver.py; none models a KeyError. -/
def unitsTable : Int → Option String
  | 1 => some "ml"
  | 2 => some "ml/s"
  | 3 => some "ml/min"
  | 4 => some "cmH2O"
  | 5 => some "ml/cmH2O"
  | 6 => some "breaths/min"
  | 7 => some "%"
  | 8 => some "l/min"
  | 9 => some "cmH2O/l/s"
  | 10 => some "mmHg"
  | 11 => some "kPa"
  | 12 => some "mbar"
  | 13 => some "mV"
  | 14 => some "s"
  | 15 => some "l/s"
  | 16 => some "cmH2O/l"
  | 17 => some "l"
  | 18 => some "Joule/l"
  | 19 => some "μV"
  | 20 => some "no unit"
  | 21 => some "cmH2O/μV"
  | 22 => some "breaths/min/l"
  | 23 => some "min"
  | _ => none

/-- The Python equality channel == openedChannel between an int and an
openChannels entry: true only for a plain entry with the same id (an int
never equals a configuration list). -/
def entryEqInt (e : ChanEntry) (n : Int) : Bool :=
  match e with
  | .plain i => i == n
  | .configured _ => false

/-- The scan over all categories at the top of readChannelConfig (lines 545
to 551): no break, so the last category containing the channel wins. -/
def findCategory (cie : CIE) (channel : Int) : Option Cat :=
  [Cat.C, .B, .T, .S, .A, .E].foldl
    (fun acc cat =>
      if (cie.openChannels.get cat).any (fun e => entryEqInt e channel) then some cat else acc)
    none

/-- list.insert(i, x) of Python: insertion at position i, clamped to the
length. -/
def insertAt {α : Type} (l : List α) (i : Nat) (x : α) : List α :=
  l.take i ++ [x] ++ l.drop i

/-- Parsing of the RCCO response (lines 568 to 586): split response[4:-9] on
commas, then decode channel number, gain, offset (placeholder fields with two
dashes become the unset value) and unit (leading zeros stripped, then looked
up in the units dict); remaining fields are kept verbatim. none models any
ValueError, IndexError or KeyError along the way. -/
def parseChannelConfig (response : List Nat) : Option ChannelConfig := do
  let fields := splitOnComma (dropLastN 9 (response.drop 4))
  let f0 ← fields.get? 0
  let f1 ← fields.get? 1
  let f2 ← fields.get? 2
  let f3 ← fields.get? 3
  let chNum ← parseInt f0
  let gain ←
    if containsDashDash f1 then some FieldVal.unset
    else do
      let m ← parseInt (f1.take 5)
      let ex ← parseInt (takeLast 4 f1)
      some (FieldVal.num m ex)
  let offset ←
    if containsDashDash f2 then some FieldVal.unset
    else do
      let m ← parseInt (f2.take 5)
      let ex ← parseInt (takeLast 4 f2)
      some (FieldVal.num m ex)
  let unit ←
    if containsDashDash f3 then some none
    else do
      let n ← parseInt (lstripZeros f3)
      let u ← unitsTable n
      some (some u)
  some ⟨chNum, gain, offset, unit, fields.drop 4⟩

/-- ServoCIE.readChannelConfig (src/source/, lines 535 to 607), with the
response passed explicitly. A channel open in no category returns INVALID
with nothing transmitted. Otherwise the request is written, the response
parsed, and the openChannels entry at the recorded position is popped and the
configuration list inserted in its place; only after that mutation does
checkErrors run, and its status is returned. -/
def readChannelConfig (cie : CIE) (channel : Int) (response : List Nat) :
    Option (Error × CIE) :=
  match findCategory cie channel with
  | none => some (.INVALID, cie)
  | some category => do
    let position ← (cie.openChannels.get category).findIdx? (fun e => entryEqInt e channel)
    let cfg ← parseChannelConfig response
    let lst := cie.openChannels.get category
    let lst2 := insertAt (lst.eraseIdx position) position (.configured cfg)
    let cie2 := { cie with openChannels := cie.openChannels.set category lst2 }
    let status ← checkErrors response false
    some (status, cie2)

/-- The escape-framed request written by endDataStream: ESC then the
end-of-transmission terminator. -/
def endStreamRequest : List Nat := [0x1B, 0x04]

/-- ServoCIE.endDataStream (src/source/, lines 609 to 630), with the response
passed explicitly. The request is written, then checkErrors runs on the last
four response bytes; only when it returns NO_ERROR is the decoder state set
back to PHASE_FLAG, otherwise the object is left untouched. -/
def endDataStream (cie : CIE) (response : List Nat) : Option (Error × CIE) := do
  let status ← checkErrors (takeLast 4 response) false
  if status = .NO_ERROR then some (status, { cie with state := .PHASE_FLAG })
  else some (status, cie)

/-- A ServoCIE state with exactly one open curve channel (id 101, already
configured) whose sample sequence is empty, all other categories closed, and
the decoder idle. -/
def oneCurveChannel : CIE :=
  { initCIE with
    openChannels := (⟨[], [], [], [], [], []⟩ : CatMap (List ChanEntry)).set .C
      [.configured ⟨101, .unset, .unset, none, []⟩]
    channelData := (⟨[], [], [], [], [], []⟩ : CatMap (List (Int × List Int))).set .C
      [(101, [])] }

/-- A state with one open Setting channel (id 300) and two open Breath
channels (ids 201, 202), all sample sequences empty, decoder idle. -/
def settingTwoBreath : CIE :=
  { initCIE with
    openChannels := ((⟨[], [], [], [], [], []⟩ : CatMap (List ChanEntry)).set .S
      [.configured ⟨300, .unset, .unset, none, []⟩]).set .B
      [.configured ⟨201, .unset, .unset, none, []⟩, .configured ⟨202, .unset, .unset, none, []⟩]
    channelData := (⟨[], [], [], [], [], []⟩ : CatMap (List (Int × List Int))).set .S
      [(300, [])] }

/-- A state with exactly one open Setting channel (id 300), sample sequence
empty, decoder idle. -/
def oneSettingChannel : CIE :=
  { initCIE with
    openChannels := (⟨[], [], [], [], [], []⟩ : CatMap (List ChanEntry)).set .S
      [.configured ⟨300, .unset, .unset, none, []⟩]
    channelData := (⟨[], [], [], [], [], []⟩ : CatMap (List (Int × List Int))).set .S
      [(300, [])] }

/-- A state with one open Breath channel (plain id 200) that has already
accumulated the pending sample 7. -/
def breathWithData : CIE :=
  { initCIE with
    openChannels := (⟨[], [], [], [], [], []⟩ : CatMap (List ChanEntry)).set .B [.plain 200]
    channelData := (⟨[], [], [], [], [], []⟩ : CatMap (List (Int × List Int))).set .B
      [(200, [7])] }

/-- An ASCII response frame that passes checkErrors: the body is the single
zero character, followed by its textual checksum 30 and the terminator. -/
def okResponse : List Nat := [48, 51, 48, 4]

/-- An RCCO response whose configuration part parses (channel 200, all
placeholder fields) but whose trailing checksum characters do not match, so
checkErrors classifies it RX_CHKSUM. -/
def cfgTestResponse : List Nat :=
  [82, 67, 67, 79] ++ [50, 48, 48, 44, 45, 45, 44, 45, 45, 44, 45, 45] ++
    [59, 48, 48, 48, 48, 48, 48, 48, 4]

/-- A decoder state about to complete a breath value: one open Breath
channel (id 201, empty samples), category Breath, cycle position 0, state
BREATH_SECND_BYTE with first value byte 0. -/
def c2WitnessState : CIE :=
  { initCIE with
    openChannels := (⟨[], [], [], [], [], []⟩ : CatMap (List ChanEntry)).set .B
      [.configured ⟨201, .unset, .unset, none, []⟩]
    channelData := (⟨[], [], [], [], [], []⟩ : CatMap (List (Int × List Int))).set .B
      [(201, [])]
    category := some .B
    state := .BREATH_SECND_BYTE }

/-- The state after c2WitnessState consumes the byte 1: the value 1 is
appended to channel 201 and the cycle position advances to 1 mod 1 = 0. -/
def c2WitnessResult : CIE :=
  { c2WitnessState with
    channelData := (⟨[], [], [], [], [], []⟩ : CatMap (List (Int × List Int))).set .B
      [(201, [1])]
    channelIndex := 0
    state := .BREATH_FIRST_BYTE
    message := [1] }

/-- A decoder state about to complete a differential curve value: one open
curve channel (id 101) whose last sample is 100, category Curve, cycle
position 0, state DIFF_VAL_BYTE. -/
def c2DiffState : CIE :=
  { initCIE with
    openChannels := (⟨[], [], [], [], [], []⟩ : CatMap (List ChanEntry)).set .C
      [.configured ⟨101, .unset, .unset, none, []⟩]
    channelData := (⟨[], [], [], [], [], []⟩ : CatMap (List (Int × List Int))).set .C
      [(101, [100])]
    category := some .C
    state := .DIFF_VAL_BYTE }

/-- The state after c2DiffState consumes the delta byte 5: the sample
100 + 5 = 105 is appended to channel 101 and the cycle position advances to
1 mod 1 = 0. -/
def c2DiffResult : CIE :=
  { c2DiffState with
    channelData := (⟨[], [], [], [], [], []⟩ : CatMap (List (Int × List Int))).set .C
      [(101, [100, 105])]
    channelIndex := 0
    value := 0
    message := [5] }

/-- C1: with exactly one open curve channel whose sample sequence is empty
and the decoder idle, feeding the phase marker 0x81, the Inspiration tag
0x10, the value marker 0x80, the bytes 0x00 0x64, the delta byte 0x05, the
end flag 0x7F and one checksum byte appends exactly the samples [100, 105]:
the big-endian absolute value 0x0064 = 100 then the delta 0x05 added to the
last sample; and a delta byte at or above the threshold 0x82 is instead
added as its value minus 256. -/
theorem c1_curve_stream_decoding (k d : Nat) (hd : 0x82 ≤ d) (hd2 : d < 256) :
    (feed oneCurveChannel [0x81, 0x10, 0x80, 0x00, 0x64, 0x05, 0x7F, k]).map
        (fun s => dataLookup (s.channelData.get .C) 101) = some (some [100, 105]) ∧
    (feed oneCurveChannel [0x81, 0x10, 0x80, 0x00, 0x64, d]).map
        (fun s => dataLookup (s.channelData.get .C) 101) =
      some (some [100, 100 + ((d : Int) - 256)]) := by
  constructor
  · rfl
  · interval_cases d <;> decide

theorem c1_curve_stream_decoding_witness :
    (feed oneCurveChannel [0x81, 0x10, 0x80, 0x00, 0x64, 0x05, 0x7F, 0x33]).map
        (fun s => dataLookup (s.channelData.get .C) 101) = some (some [100, 105]) ∧
    (feed oneCurveChannel [0x81, 0x10, 0x80, 0x00, 0x64, 0x90]).map
        (fun s => dataLookup (s.channelData.get .C) 101) =
      some (some [100, 100 + ((0x90 : Int) - 256)]) :=
  c1_curve_stream_decoding 0x33 0x90 (by decide) (by decide)

/-- C2 counterexample: the claimed invariant fails twice on the code. First,
with no open Breath channel, a completing breath value makes the decode step
raise (none) instead of skipping the cycle-position advance. Second, with one
open Setting channel and two open Breath channels, a two-value setting
message leaves the cycle position at 1 while the Setting category being
decoded has open-channel count 1, so the position is not in [0, 1). -/
theorem c2_cycle_position_counterexample :
    feed initCIE [0x42, 0x00, 0x01] = none ∧
    (feed settingTwoBreath [0x53, 0x00, 0x01, 0x00, 0x02]).map
        (fun s => (s.category, s.channelIndex, (s.openChannels.get .S).length)) =
      some (some .S, 1, 1) := by decide

/-- C2 amended: whenever a decode step that completes a value (the two-byte
completions in CURVE_SECND_BYTE, BREATH_SECND_BYTE and SETTING_SECND_BYTE,
and the differential completion of a non-marker byte in DIFF_VAL_BYTE)
succeeds, the cycle position used to attribute the value was inside the
open-channel list of the category being decoded, and the open-channel count
used as the modulus of the advance (the Curve, Breath, Setting and again
Curve count respectively) was nonzero. When the count is zero or the position
is out of range, the step raises (returns none) instead of skipping the
advance; and because the Setting completion advances modulo the Breath count,
the position may still leave [0, settingCount) afterwards, as the
counterexample shows. -/
theorem c2_cycle_position_amended (c : CIE) (b : Nat) (c' : CIE)
    (h : step c b = some c') :
    (c.state = .CURVE_SECND_BYTE →
      ∃ cat, c.category = some cat ∧ c.channelIndex < (c.openChannels.get cat).length ∧
        (c.openChannels.get .C).length ≠ 0) ∧
    (c.state = .BREATH_SECND_BYTE →
      ∃ cat, c.category = some cat ∧ c.channelIndex < (c.openChannels.get cat).length ∧
        (c.openChannels.get .B).length ≠ 0) ∧
    (c.state = .SETTING_SECND_BYTE →
      ∃ cat, c.category = some cat ∧ c.channelIndex < (c.openChannels.get cat).length ∧
        (c.openChannels.get .S).length ≠ 0) ∧
    (c.state = .DIFF_VAL_BYTE → b ≠ 0x80 → b ≠ 0x7F → b ≠ 0x81 →
      ∃ cat, c.category = some cat ∧ c.channelIndex < (c.openChannels.get cat).length ∧
        (c.openChannels.get .C).length ≠ 0) := by
  obtain ⟨em, apv, oc, cd, cat, ph, idx, v, st, msg⟩ := c
  refine ⟨?_, ?_, ?_, ?_⟩
  · intro hst
    subst hst
    simp only [step, Option.bind_eq_bind] at h
    cases cat with
    | none => simp at h
    | some catv =>
      simp only [Option.some_bind] at h
      cases hget : (oc.get catv).get? idx with
      | none => rw [hget] at h; simp at h
      | some entry =>
        rw [hget] at h
        simp only [Option.some_bind] at h
        cases hch : entry.sub0 with
        | none => rw [hch] at h; simp at h
        | some chv =>
          rw [hch] at h
          simp only [Option.some_bind] at h
          cases hdl : dataLookup (cd.get catv) chv with
          | none => rw [hdl] at h; simp at h
          | some samples =>
            rw [hdl] at h
            simp only [Option.some_bind] at h
            by_cases hn : (oc.get Cat.C).length = 0
            · rw [if_pos hn] at h
              simp at h
            · exact ⟨catv, rfl, (List.get?_eq_some.mp hget).1, hn⟩
  · intro hst
    subst hst
    simp only [step, Option.bind_eq_bind] at h
    cases cat with
    | none => simp at h
    | some catv =>
      simp only [Option.some_bind] at h
      cases hget : (oc.get catv).get? idx with
      | none => rw [hget] at h; simp at h
      | some entry =>
        rw [hget] at h
        simp only [Option.some_bind] at h
        cases hch : entry.sub0 with
        | none => rw [hch] at h; simp at h
        | some chv =>
          rw [hch] at h
          simp only [Option.some_bind] at h
          cases hdl : dataLookup (cd.get catv) chv with
          | none => rw [hdl] at h; simp at h
          | some samples =>
            rw [hdl] at h
            simp only [Option.some_bind] at h
            by_cases hn : (oc.get Cat.B).length = 0
            · rw [if_pos hn] at h
              simp at h
            · exact ⟨catv, rfl, (List.get?_eq_some.mp hget).1, hn⟩
  · intro hst
    subst hst
    simp only [step, Option.bind_eq_bind] at h
    cases cat with
    | none => simp at h
    | some catv =>
      simp only [Option.some_bind] at h
      cases hget : (oc.get catv).get? idx with
      | none => rw [hget] at h; simp at h
      | some entry =>
        rw [hget] at h
        simp only [Option.some_bind] at h
        cases hch : entry.sub0 with
        | none => rw [hch] at h; simp at h
        | some chv =>
          rw [hch] at h
          simp only [Option.some_bind] at h
          cases hdl : dataLookup (cd.get catv) chv with
          | none => rw [hdl] at h; simp at h
          | some samples =>
            rw [hdl] at h
            simp only [Option.some_bind] at h
            by_cases hn : (oc.get Cat.S).length = 0
            · rw [if_pos hn] at h
              simp at h
            · exact ⟨catv, rfl, (List.get?_eq_some.mp hget).1, hn⟩
  · intro hst hb80 hb7f hb81
    subst hst
    simp only [step, Option.bind_eq_bind] at h
    rw [if_neg hb80, if_neg hb7f, if_neg hb81] at h
    cases cat with
    | none => simp at h
    | some catv =>
      simp only [Option.some_bind] at h
      cases hget : (oc.get catv).get? idx with
      | none => rw [hget] at h; simp at h
      | some entry =>
        rw [hget] at h
        simp only [Option.some_bind] at h
        cases hch : entry.sub0 with
        | none => rw [hch] at h; simp at h
        | some chv =>
          rw [hch] at h
          simp only [Option.some_bind] at h
          cases hdl : dataLookup (cd.get catv) chv with
          | none => rw [hdl] at h; simp at h
          | some samples =>
            rw [hdl] at h
            simp only [Option.some_bind] at h
            cases hlast : samples.getLast? with
            | none => rw [hlast] at h; simp at h
            | some lastValue =>
              rw [hlast] at h
              simp only [Option.some_bind] at h
              by_cases hn : (oc.get Cat.C).length = 0
              · rw [if_pos hn] at h
                simp at h
              · exact ⟨catv, rfl, (List.get?_eq_some.mp hget).1, hn⟩

theorem c2_cycle_position_amended_witness :
    (∃ cat, c2WitnessState.category = some cat ∧
      c2WitnessState.channelIndex < (c2WitnessState.openChannels.get cat).length ∧
      (c2WitnessState.openChannels.get .B).length ≠ 0) ∧
    (∃ cat, c2DiffState.category = some cat ∧
      c2DiffState.channelIndex < (c2DiffState.openChannels.get cat).length ∧
      (c2DiffState.openChannels.get .C).length ≠ 0) :=
  ⟨(c2_cycle_position_amended c2WitnessState 1 c2WitnessResult (by decide)).2.1 rfl,
   (c2_cycle_position_amended c2DiffState 5 c2DiffResult (by decide)).2.2.2 rfl
     (by decide) (by decide) (by decide)⟩

/-- C3: the code contradicts the claimed PHASE_TAG error transition. After
the phase marker 0x81, consuming the invalid phase byte 0x00 leaves the
decoder in DIFF_VAL_BYTE with category still Curve, phase unchanged and the
raw-message accumulator not cleared: the assignment of ERROR on line 424 is
dead because line 425 unconditionally overwrites the state, so no reset runs
and the next byte is not evaluated from IDLE. -/
theorem c3_phase_tag_error_clobbered :
    (feed initCIE [0x81, 0x00]).map (fun s => (s.state, s.category, s.phase, s.message)) =
      some (.DIFF_VAL_BYTE, some .C, .blank, [0x81, 0x00]) ∧
    StreamState.DIFF_VAL_BYTE ≠ .PHASE_FLAG := by decide

/-- C4: the code contradicts the claimed return to SETTING_VAL_1_OR_END.
With one open Setting channel, the setting message tag 0x53 followed by the
two value bytes 0x00 0x07 appends the value 7 at cycle position 0 and
advances the position modulo the Setting count as claimed, but line 505 then
moves the decoder to BREATH_FIRST_BYTE instead of SETTING_FIRST_BYTE, so
subsequent values of the same setting message are decoded through the breath
states and advance the position modulo the Breath channel count. -/
theorem c4_setting_completion_wrong_state :
    (feed oneSettingChannel [0x53, 0x00, 0x07]).map
        (fun s => (s.state, s.category, dataLookup (s.channelData.get .S) 300, s.channelIndex)) =
      some (.BREATH_FIRST_BYTE, some .S, some [7], 0) ∧
    StreamState.BREATH_FIRST_BYTE ≠ .SETTING_FIRST_BYTE := by decide

/-- C5 counterexample: ending the stream with a decoder mid-message and a
response that fails checksum validation returns RX_CHKSUM and leaves the
Decoder State at CURVE_FIRST_BYTE: the reset to idle happens only on the
NO_ERROR outcome, not regardless of the outcome. -/
theorem c5_end_stream_counterexample :
    (endDataStream { initCIE with state := .CURVE_FIRST_BYTE } [0, 0, 0, 0]).map
        (fun p => (p.1, p.2.state)) = some (.RX_CHKSUM, .CURVE_FIRST_BYTE) ∧
    StreamState.CURVE_FIRST_BYTE ≠ .PHASE_FLAG := by decide

/-- C5 amended: endDataStream sends the escape-framed request and, when the
check of the last four response bytes succeeds, returns NO_ERROR with the
Decoder State forced back to idle; on any other returned status the object,
its Decoder State included, is left exactly as it was. -/
theorem c5_end_stream_amended (cie : CIE) (response : List Nat) (st : Error)
    (h : checkErrors (takeLast 4 response) false = some st) :
    endDataStream cie response =
      some (st, if st = .NO_ERROR then { cie with state := .PHASE_FLAG } else cie) ∧
    endStreamRequest = [0x1B] ++ [0x04] := by
  refine ⟨?_, rfl⟩
  unfold endDataStream
  rw [h]
  by_cases hst : st = .NO_ERROR <;> simp [hst]

theorem c5_end_stream_amended_witness :
    (endDataStream { initCIE with state := .CURVE_FIRST_BYTE } okResponse =
      some (.NO_ERROR,
        if (Error.NO_ERROR = .NO_ERROR) then
          { { initCIE with state := .CURVE_FIRST_BYTE } with state := .PHASE_FLAG }
        else { initCIE with state := .CURVE_FIRST_BYTE }) ∧
    endStreamRequest = [0x1B] ++ [0x04]) :=
  c5_end_stream_amended { initCIE with state := .CURVE_FIRST_BYTE } okResponse .NO_ERROR
    (by decide)

/-- Auxiliary bound for C6: the XOR fold of bytes below 256 stays below 256,
for any accumulator below 256. -/
theorem xorFoldBound (m : List Nat) (acc : Nat) (hb : ∀ x ∈ m, x < 256)
    (hacc : acc < 256) : m.foldl Nat.xor acc < 256 := by
  induction m generalizing acc with
  | nil => simpa using hacc
  | cons b t ih =>
    simp only [List.foldl_cons]
    apply ih
    · intro x hx
      exact hb x (List.mem_cons_of_mem _ hx)
    · have hb1 : b < 256 := hb b (List.mem_cons_self _ _)
      have hx : Nat.xor acc b < 2 ^ 8 :=
        Nat.xor_lt_two_pow (by simpa using hacc) (by simpa using hb1)
      simpa using hx

set_option maxRecDepth 10000 in
/-- Auxiliary computation for C6: for every checksum value below 256 the
rendered text is exactly two characters and bytes.fromhex decodes it back to
the one byte holding that value. -/
theorem checksumTextRound : ∀ cv : Fin 256,
    fromHex (zfill2 ((Nat.toDigits 16 cv.val).map (fun ch => upperByte ch.toNat))) =
      some [cv.val] ∧
    (zfill2 ((Nat.toDigits 16 cv.val).map (fun ch => upperByte ch.toNat))).length = 2 := by
  decide

/-- C6: for every byte sequence of length 0 to 256, the binary-form checksum
is the single raw byte whose value is the XOR fold of the sequence, obtained
by hex-decoding the textual form; the textual form is exactly two characters;
and the XOR fold itself is below 256. Generation and validation share the one
function calculateChecksumPy, so they are identical by construction. -/
theorem c6_checksum_round_trip (m : List Nat) (hb : ∀ x ∈ m, x < 256)
    (_hl : m.length ≤ 256) :
    calculateChecksumPy m true = some [calculateChecksum m] ∧
    calculateChecksumPy m false = some (checksumText m) ∧
    (checksumText m).length = 2 ∧
    calculateChecksum m < 256 := by
  have hc : calculateChecksum m < 256 := xorFoldBound m 0 hb (by decide)
  have hr := checksumTextRound ⟨calculateChecksum m, hc⟩
  exact ⟨hr.1, rfl, hr.2, hc⟩

theorem c6_checksum_round_trip_witness :
    calculateChecksumPy [65, 66] true = some [calculateChecksum [65, 66]] ∧
    calculateChecksumPy [65, 66] false = some (checksumText [65, 66]) ∧
    (checksumText [65, 66]).length = 2 ∧
    calculateChecksum [65, 66] < 256 :=
  c6_checksum_round_trip [65, 66] (by decide) (by decide)

/-- C7 counterexample: with one open Breath channel holding the pending
sample 7, defining the Breath category with an empty channel list and an
error-free response clears the Open Channel Table entry but leaves the
pending sample in channelData: the accumulated samples are not discarded. -/
theorem c7_clear_category_counterexample :
    (defineAcquiredData breathWithData "B" [] okResponse).map
        (fun r => (r.status, r.final.openChannels.get .B, r.final.channelData.get .B)) =
      some (.NO_ERROR, [], [(200, [7])]) ∧
    ([(200, [7])] : List (Int × List Int)) ≠ [] := by decide

/-- C7 amended: defineAcquiredData with an empty channel list and an
error-free response clears that category Open Channel Table entry and changes
nothing else: channelData, with every pending sample accumulated for the
previously open channels, is left untouched. -/
theorem c7_clear_category_amended (cie : CIE) (catStr : String) (cat : Cat)
    (resp : List Nat) (hcat : strToCat catStr = some cat)
    (hok : checkErrors resp false = some .NO_ERROR) :
    defineAcquiredData cie catStr [] resp =
      some ⟨.NO_ERROR, some (sdadMessage cat []),
        { cie with openChannels := cie.openChannels.set cat [] }⟩ := by
  unfold defineAcquiredData
  rw [hcat, hok]
  rfl

theorem c7_clear_category_amended_witness :
    defineAcquiredData breathWithData "B" [] okResponse =
      some ⟨.NO_ERROR, some (sdadMessage .B []),
        { breathWithData with openChannels := breathWithData.openChannels.set .B [] }⟩ :=
  c7_clear_category_amended breathWithData "B" .B okResponse (by decide) (by decide)

/-- C8 counterexample: a request opening five Curve channels (above the
claimed ceiling of 4) is not rejected locally: the SDAD request is
transmitted, the error-free response is accepted, and the table entry is
created with five channels. -/
theorem c8_channel_ceiling_counterexample :
    (defineAcquiredData initCIE "C" [1, 2, 3, 4, 5] okResponse).map
        (fun r => (r.status, r.written, (r.final.openChannels.get .C).length)) =
      some (.NO_ERROR, some (sdadMessage .C [1, 2, 3, 4, 5]), 5) ∧
    4 < 5 := by decide

/-- C8 amended: defineAcquiredData enforces no channel-count ceiling at all.
For every state, every valid category and every channel list of any length,
the request is built and transmitted to the device; the returned status comes
from the response alone. -/
theorem c8_channel_ceiling_amended (cie : CIE) (catStr : String) (cat : Cat)
    (channels : List Int) (resp : List Nat) (st : Error)
    (hcat : strToCat catStr = some cat) (hresp : checkErrors resp false = some st) :
    ∃ r, defineAcquiredData cie catStr channels resp = some r ∧
      r.written = some (sdadMessage cat channels) ∧ r.status = st := by
  unfold defineAcquiredData
  rw [hcat, hresp]
  by_cases hst : st = .NO_ERROR <;> by_cases hc : 0 < channels.length <;>
    simp [hst, hc]

theorem c8_channel_ceiling_amended_witness :
    ∃ r, defineAcquiredData initCIE "C" [1, 2, 3, 4, 5] okResponse = some r ∧
      r.written = some (sdadMessage .C [1, 2, 3, 4, 5]) ∧ r.status = .NO_ERROR :=
  c8_channel_ceiling_amended initCIE "C" .C [1, 2, 3, 4, 5] okResponse .NO_ERROR
    (by decide) (by decide)

/-- C9 counterexample: frames shorter than any minimum valid length are not
rejected as malformed; they are classified by the ordinary checksum
comparison over empty or partial slices. The one-byte binary frame 0x00 is
even accepted as NO_ERROR, because the checksum of the empty body slice is
the byte 0x00 itself; the empty frame yields RX_CHKSUM in both modes. -/
theorem c9_short_frame_counterexample :
    checkErrors [0] true = some .NO_ERROR ∧
    checkErrors [] true = some .RX_CHKSUM ∧
    checkErrors [] false = some .RX_CHKSUM := by decide

/-- C9 amended: checkErrors performs no minimum-length validation. Every
ASCII frame shorter than three bytes that does not begin with the ER prefix
is classified RX_CHKSUM through the checksum comparison over its empty or
partial slices, and the one-byte binary frame 0x00 passes as NO_ERROR. -/
theorem c9_short_frame_amended (m : List Nat) (hlen : m.length < 3)
    (hpre : m.take 2 ≠ [0x45, 0x52]) :
    checkErrors m false = some .RX_CHKSUM ∧ checkErrors [0] true = some .NO_ERROR := by
  refine ⟨?_, by decide⟩
  match m, hlen with
  | [], _ => decide
  | [a], _ =>
    unfold checkErrors
    rw [if_neg hpre]
    have h1 : dropLastN 3 [a] = ([] : List Nat) := rfl
    have h2 : dropLastN 1 [a] = ([] : List Nat) := rfl
    rw [h1, h2]
    rfl
  | [a, b], _ =>
    unfold checkErrors
    rw [if_neg hpre]
    have h1 : dropLastN 3 [a, b] = ([] : List Nat) := rfl
    have h2 : takeLast 2 (dropLastN 1 [a, b]) = [a] := rfl
    rw [h1, h2]
    have hne : ([a] : List Nat) ≠ checksumText [] := by
      have h3 : checksumText [] = [48, 48] := rfl
      rw [h3]
      simp
    rw [if_pos hne]
    rfl

theorem c9_short_frame_amended_witness :
    (checkErrors [1, 2] false = some .RX_CHKSUM ∧ checkErrors [0] true = some .NO_ERROR) :=
  c9_short_frame_amended [1, 2] (by decide) (by decide)

/-- C10: readChannelConfig replaces the channel table entry before
validation. For every state, channel and response whose configuration part
parses, the returned state has the entry at the recorded position popped and
replaced by the parsed configuration, whatever status the subsequent
checkErrors call returns; in particular the replacement is already in place
when the status is not NO_ERROR. -/
theorem c10_config_replaced_before_validation (cie : CIE) (channel : Int)
    (resp : List Nat) (cat : Cat) (pos : Nat) (cfg : ChannelConfig) (st : Error)
    (h1 : findCategory cie channel = some cat)
    (h2 : (cie.openChannels.get cat).findIdx? (fun e => entryEqInt e channel) = some pos)
    (h3 : parseChannelConfig resp = some cfg)
    (h4 : checkErrors resp false = some st) :
    readChannelConfig cie channel resp =
      some (st, { cie with openChannels :=
        cie.openChannels.set cat (insertAt ((cie.openChannels.get cat).eraseIdx pos) pos (.configured cfg)) }) := by
  unfold readChannelConfig
  rw [h1]
  simp only [Option.bind_eq_bind]
  rw [h2]
  simp only [Option.some_bind]
  rw [h3]
  simp only [Option.some_bind]
  rw [h4]
  simp only [Option.some_bind]

theorem c10_config_replaced_before_validation_witness :
    readChannelConfig breathWithData 200 cfgTestResponse =
      some (.RX_CHKSUM, { breathWithData with openChannels := breathWithData.openChannels.set Cat.B (insertAt ((breathWithData.openChannels.get Cat.B).eraseIdx 0) 0 (ChanEntry.configured ⟨200, FieldVal.unset, FieldVal.unset, none, []⟩)) }) :=
  c10_config_replaced_before_validation breathWithData 200 cfgTestResponse .B 0
    ⟨200, .unset, .unset, none, []⟩ .RX_CHKSUM (by decide) (by decide) (by decide) (by decide)

end ServoCIE
